import Mathlib

/-!
Verification development for the hypothesize-verify-engine repository
(`mvp/agents.py`, `mvp/utils.py`, `mvp/main.py`, `mvp/evaluation.py`).

The Python code is shallowly embedded: pure computations become Lean
functions, remote collaborators (the text-generation endpoint, the search
provider, `json.loads`, the judge) become function parameters describing
their responses, and console prints / call counts are made explicit as
returned data.  Machine floats used by the code only for delays and
latencies are modelled with the exact rationals produced by the same
arithmetic.
-/

/-! ## Python string helpers

Small executable models of the Python string operations the code uses:
`str` on lists/tuples of strings, `str.join`, `str.replace` with the
two-character pattern backslash-`n` (the source files spell the join
separator as the Python literal `"\\n"`, i.e. a backslash followed by the
letter `n`, not a newline), and substring occurrence. -/

/-- The ASCII apostrophe character used by Python `repr` of strings. -/
def squoteChar : Char := Char.ofNat 39

/-- Python `repr` of a plain string (no escaping needed for our inputs). -/
def pyStr (s : String) : String := String.singleton squoteChar ++ s ++ String.singleton squoteChar

/-- Python `sep.join(xs)`: the separator between consecutive elements only. -/
def joinWith (sep : String) : List String → String
  | [] => ""
  | [s] => s
  | s :: t :: rest => s ++ sep ++ joinWith sep (t :: rest)

/-- Python `str` of a list of strings: single-quoted entries, comma-separated, in square brackets. -/
def pyListStr (xs : List String) : String := "[" ++ joinWith ", " (xs.map pyStr) ++ "]"

/-- Python `str(tuple(xs))` for a list of strings, including the trailing comma of a singleton tuple and the empty tuple. -/
def pyTupleStr : List String → String
  | [] => "()"
  | [x] => "(" ++ pyStr x ++ ",)"
  | xs => "(" ++ joinWith ", " (xs.map pyStr) ++ ")"

/-- The backslash character. -/
def bslashChar : Char := Char.ofNat 92

/-- The letter `n`. -/
def nChar : Char := Char.ofNat 110

/-- Python `str.replace` of the two-character backslash-n pattern by a space, on the character list: every occurrence of
the two-character sequence backslash-`n` becomes one space, scanning left to
right without overlap, exactly as Python `str.replace` does. -/
def replBNList : List Char → List Char
  | [] => []
  | [c] => [c]
  | c :: c2 :: rest =>
    if c = bslashChar ∧ c2 = nChar then Char.ofNat 32 :: replBNList rest
    else c :: replBNList (c2 :: rest)

/-- Python `str.replace` of the two-character backslash-n pattern by a space, on strings. -/
def pyReplaceBN (s : String) : String := String.mk (replBNList s.data)

/-- `isPre p s` holds when the character list `p` is an initial segment of `s`. -/
def isPre : List Char → List Char → Bool
  | [], _ => true
  | _ :: _, [] => false
  | a :: as, b :: bs => if a = b then isPre as bs else false

/-- `subList p s` holds when `p` occurs contiguously inside `s`. -/
def subList (p : List Char) : List Char → Bool
  | [] => isPre p []
  | c :: cs => isPre p (c :: cs) || subList p cs

/-- `hasSub pat s`: the string `pat` occurs as a contiguous substring of `s`. -/
def hasSub (pat s : String) : Bool := subList pat.data s.data

/-! ## Fixed strings of the source

The literal messages returned or printed by the code, copied from
`mvp/agents.py` and `mvp/main.py`. -/

/-- `agents.generate_answer`: answer returned for an empty verified-evidence list. -/
def noInfoMsg : String := "抱歉，经过验证，我没有足够的信息来回答这个问题。"

/-- `agents.generate_answer`: answer returned when the model call fails or is empty. -/
def answerFailMsg : String := "在生成最终答案时出错。"

/-- `main.run_pipeline`: message printed when the hypothesis graph is empty. -/
def abortMsg : String := "无法生成假设图谱。流程终止。"

/-- The reserved search-failure sentinel of `utils.execute_search`. -/
def searchSentinel : String := "SEARCH_API_ERROR"

/-- The separator `utils.execute_search` joins snippets with: the Python
literal `"\\n"`, i.e. the two characters backslash and `n` (not a newline). -/
def searchSep : String := "\\n"

/-! ## Prompt templates (`mvp/agents.py`)

`str.format` on the module-level templates, with the placeholder spliced
in.  The template text is inert for all theorems below but is kept
faithful to the source; the literal braces of the query-generator example
(written `{{`/`}}` in Python) are the characters `\x7b`/`\x7d`. -/

/-- `HYPOTHESIZER_PROMPT.format(question=question)`. -/
def HYPOTHESIZER_PROMPT_fmt (question : String) : String :=
  "\n你是一位严谨的知识图谱构建专家。你的任务是分析一个问题，并分解成一个“假设性知识图谱”，这个图谱中的三元组（主体, 关系, 客体）必须是回答该问题所需的核心事实。\n\n请遵循以下步骤：\n1.  **思考**: 首先，在<thinking>标签中，逐步分析问题。确定需要知道哪些实体（人、地点、事物）的哪些属性或它们之间的关系才能推导出最终答案。\n2.  **构建**: 基于你的思考，生成一个JSON对象。这个对象必须包含两个键：\n    - \"reasoning\": 一个字符串，包含你在<thinking>标签中的完整分析过程。\n    - \"triples\": 一个JSON格式的三元组列表 `[主体, 关系, 客体]`。\n\n**重要规则**:\n- 三元组应尽可能原子化和具体。\n- 仅输出一个最终的、格式正确的JSON对象。\n\n问题: \"" ++ question ++ "\"\n"

/-- `QUERY_GENERATOR_PROMPT.format(triple=str(tuple(triple)))`; the argument
is already the Python tuple rendering of the triple. -/
def QUERY_GENERATOR_PROMPT_fmt (tripleRepr : String) : String :=
  "\n你是一位专业的搜索引擎查询构造师。你的任务是为一个知识三元组生成最多3个高效、多样化的Google搜索查询，用于事实核查。\n\n**指导原则**:\n- **多样性**: 创建不同角度的查询。例如，可以分别从主体和客体的角度提问。\n- **简洁性**: 查询应简短精炼，直击要点。\n- **避免是非题**: 不要生成简单的“是不是”或“对不对”的问题。\n\n知识三元组: " ++ tripleRepr ++ "\n\n请以JSON对象格式输出，其中包含一个名为 \"queries\" 的键，其值为一个字符串列表。\n示例: \x7b\"queries\": [\"维多利亚女王与阿尔伯特亲王的婚姻年份\", \"阿尔伯特亲王 妻子\", \"维多利亚女王 丈夫\"]\x7d\n"

/-- `VERIFIER_PROMPT.format(triple=str(tuple(triple)), snippets=snippets)`. -/
def VERIFIER_PROMPT_fmt (tripleRepr snippets : String) : String :=
  "\n你是一个极其精确和专注的事实核查员。你的唯一任务是判断提供的“证据摘要”是否明确支持或反驳给定的“知识三元组”。\n\n**你的决策必须严格遵守以下规则**:\n1.  **只依赖证据**: 你的判断必须*完全*基于所提供的“证据摘要”。绝对不能使用任何你的内部知识。\n2.  **精确匹配**:\n    - **Supports**: 摘要中必须有非常明确的陈述，直接证实该三元组。强烈的暗示也可以接受，但不能是猜测。\n    - **Refutes**: 摘要中必须有非常明确的陈述，直接否定该三元组。\n    - **Neutral**: 如果摘要与三元组无关、信息不充分、模棱两可，或者无法直接判断真伪，则必须回答Neutral。\n3.  **单字输出**: 你的回答必须是单个词: `Supports`, `Refutes`, 或 `Neutral`。\n\n知识三元组: " ++ tripleRepr ++ "\n\n证据摘要:\n---\n" ++ snippets ++ "\n---\n\n你的单字回答:\n"

/-- `ANSWERER_PROMPT.format(question=question, verified_evidence=verified_evidence)`. -/
def ANSWERER_PROMPT_fmt (question verified_evidence : String) : String :=
  "\n你是一位智能且客观的问答机器人。你的任务是根据下面提供的“已验证的外部证据”，为用户的“原始问题”生成一个简洁、直接的最终答案。\n\n**核心指令**:\n- **忠于证据**: 你的答案必须*只能*从已验证的证据中推导出来。不要添加任何外部信息或个人知识。\n- **直接回答**: 直接回答原始问题。\n- **综合信息**: 如果有多条证据，请将它们综合起来形成一个连贯的答案。\n- **承认不足**: 如果提供的证据不足以回答问题，请明确说明这一点，例如：“根据已验证的信息，无法确定...”。\n\n原始问题: \"" ++ question ++ "\"\n\n已验证的外部证据:\n---\n" ++ verified_evidence ++ "\n---\n\n基于以上所有信息，请为原始问题提供一个最终的、基于证据的答案。\n"

/-! ## `utils.call_llm` (`mvp/utils.py`, lines 23-71)

The retry loop `for attempt in range(MAX_RETRIES)`.  The remote endpoint is
a parameter mapping the attempt index to either the response content
(`.ok`) or the exception message (`.error`); `MAX_RETRIES` and
`INITIAL_BACKOFF` are read by the code from its configuration module and
appear here as parameters, and `random.uniform(0, 1)` is a parameter
stream of jitters.  The trace records the number of endpoint invocations,
the delays slept (in order), and the content of the final
"call ultimately failed" message, which carries the last exception. -/

structure CallTrace where
  calls : Nat
  sleeps : List ℚ
  finalErrorLog : Option String
deriving DecidableEq

/-- The body of the retry loop, by remaining iterations (`fuel`) from a given
attempt index.  Mirrors: try the call; on success return the stripped
content; on the last attempt log the error and fall through to `return None`;
otherwise sleep `INITIAL_BACKOFF * 2 ** attempt + jitter` and continue. -/
def callFrom (endpoint : Nat → Except String String) (B : ℚ) (jit : Nat → ℚ) :
    Nat → Nat → Option String × CallTrace
  | _, 0 => (none, ⟨0, [], none⟩)
  | attempt, fuel + 1 =>
    match endpoint attempt with
    | Except.ok s => (some s.trim, ⟨1, [], none⟩)
    | Except.error e =>
      match fuel with
      | 0 => (none, ⟨1, [], some e⟩)
      | f + 1 =>
        let d := B * 2 ^ attempt + jit attempt
        let r := callFrom endpoint B jit (attempt + 1) (f + 1)
        (r.1, ⟨r.2.calls + 1, d :: r.2.sleeps, r.2.finalErrorLog⟩)

/-- `utils.call_llm`: run the retry loop from attempt 0. -/
def call_llm (endpoint : Nat → Except String String) (maxRetries : Nat)
    (initialBackoff : ℚ) (jit : Nat → ℚ) : Option String × CallTrace :=
  callFrom endpoint initialBackoff jit 0 maxRetries

/-! ## `utils.execute_search` (`mvp/utils.py`, lines 73-101)

The provider response is a parameter: a transport/HTTP failure
(`requests.exceptions.RequestException`, including `raise_for_status` on
non-2xx), a body that is not JSON (`json.JSONDecodeError`), or a parsed
object whose `organic` results carry the listed snippet strings (a result
without a snippet contributes `""` via `res.get("snippet", "")`, and a
body without `organic` contributes the empty list). -/

inductive SearchOutcome where
  | requestError
  | badJson
  | results (snippets : List String)
deriving DecidableEq

/-- `utils.execute_search`: join the non-empty snippets with the literal
`"\\n"` separator, or return the sentinel on provider failure. -/
def execute_search (response : SearchOutcome) : String :=
  match response with
  | SearchOutcome.requestError => searchSentinel
  | SearchOutcome.badJson => searchSentinel
  | SearchOutcome.results snippets => joinWith searchSep (snippets.filter (fun s => s != ""))

/-! ## `agents.generate_graph` / `agents.generate_queries` (`mvp/agents.py`)

`json.loads` plus the dictionary access `data.get(key, [])` are embedded by
a parameter describing the parse of a given raw output:
`decodeError` covers `json.JSONDecodeError` and the `AttributeError` of
calling `.get` on a non-dictionary (both alternatives of the same Python
`except` clause, which prints the warning), `missingKey` is a parsed
dictionary without the expected key (the silent `.get` default), and
`keyValue v` is a parsed dictionary carrying `v` under the key.  Claim
triples are modelled as lists of strings of arbitrary length, since the
code applies no shape checks to them.  Each function returns its Python
result together with a flag recording whether the parse-failure warning
was printed. -/

inductive JsonParse (α : Type) where
  | decodeError
  | missingKey
  | keyValue (v : α)
deriving DecidableEq

/-- `agents.generate_graph`: `call_llm` with the hypothesizer prompt, then
`json.loads` and `data.get("triples", [])`; falsy raw output yields `[]`
without a warning. -/
def generate_graph (llm : String → Option String)
    (loads : String → JsonParse (List (List String))) (question : String) :
    List (List String) × Bool :=
  match llm (HYPOTHESIZER_PROMPT_fmt question) with
  | none => ([], false)
  | some raw =>
    if raw = "" then ([], false)
    else
      match loads raw with
      | JsonParse.decodeError => ([], true)
      | JsonParse.missingKey => ([], false)
      | JsonParse.keyValue v => (v, false)

/-- `agents.generate_queries`: `call_llm` with the query-generator prompt on
`str(tuple(triple))`, then `json.loads` and `data.get("queries", [])`. -/
def generate_queries (llm : String → Option String)
    (loads : String → JsonParse (List String)) (triple : List String) :
    List String × Bool :=
  match llm (QUERY_GENERATOR_PROMPT_fmt (pyTupleStr triple)) with
  | none => ([], false)
  | some raw =>
    if raw = "" then ([], false)
    else
      match loads raw with
      | JsonParse.decodeError => ([], true)
      | JsonParse.missingKey => ([], false)
      | JsonParse.keyValue v => (v, false)

/-! ## `agents.verify` (`mvp/agents.py`, lines 140-151) -/

/-- `agents.verify`: short-circuit to `"Neutral"` on empty or sentinel
evidence without calling the model; otherwise normalize the model response
(`None` and anything but an exact label become `"Neutral"`).  The second
component records whether the remote model call was made. -/
def verify (model : String → Option String) (triple : List String)
    (snippets : String) : String × Bool :=
  if snippets = "" ∨ snippets = searchSentinel then ("Neutral", false)
  else
    match model (VERIFIER_PROMPT_fmt (pyTupleStr triple) snippets) with
    | some r => (if r = "Supports" ∨ r = "Refutes" ∨ r = "Neutral" then r else "Neutral", true)
    | none => ("Neutral", true)

/-! ## `agents.generate_answer` (`mvp/agents.py`, lines 153-170) -/

structure VerifiedFact where
  triple : List String
  evidence : String
deriving DecidableEq

/-- The `evidence_str` accumulation of `agents.generate_answer`: for each
fact, `"- 事实: " + str(triple) + "\n"` then
`"  证据: "` plus the evidence with the backslash-n pattern replaced by a space plus `"\n\n"`, appended to the
accumulator in list order. -/
def evidence_block (facts : List VerifiedFact) : String :=
  facts.foldl (fun acc fact =>
    acc ++ "- 事实: " ++ pyListStr fact.triple ++ "\n" ++ "  证据: " ++
      pyReplaceBN fact.evidence ++ "\n\n") ""

/-- The same accumulation as `evidence_block` but with the evidence of each
fact kept verbatim.  Modelled from the words of the spec ("the formatted evidence
block passed to the model contains exactly the claims/evidence in
VerifiedFactSet, in order"), for comparison with the block of the source. -/
def evidence_block_specWords (facts : List VerifiedFact) : String :=
  facts.foldl (fun acc fact =>
    acc ++ "- 事实: " ++ pyListStr fact.triple ++ "\n" ++ "  证据: " ++
      fact.evidence ++ "\n\n") ""

/-- `agents.generate_answer`: the fixed insufficiency message on an empty
verified-evidence list (no model call); otherwise one model call on the
answerer prompt over the formatted evidence block, with falsy responses
(`None` or `""`) replaced by the fixed error answer.  The second component
lists the prompts sent to the model. -/
def generate_answer (llm : String → Option String) (question : String)
    (verified_evidence : List VerifiedFact) : String × List String :=
  if verified_evidence = [] then (noInfoMsg, [])
  else
    let prompt := ANSWERER_PROMPT_fmt question (evidence_block verified_evidence)
    match llm prompt with
    | some r => (if r = "" then answerFailMsg else r, [prompt])
    | none => (answerFailMsg, [prompt])

/-! ## `main.run_pipeline` (`mvp/main.py`)

The orchestrator is parameterized by the results of its collaborators:
`gg` is the graph returned by `agents.generate_graph` for the question,
`gq` the queries returned by `agents.generate_queries` for a triple,
`search` the string returned by `utils.execute_search` for a query, and
`vf` the verdict string returned by `agents.verify` for a triple and
evidence text.  The inner query loop (lines 46-57) and the claim loop
(lines 35-62) are embedded directly; a `PipelineRun` records the values
the function computes and prints (the function itself returns `None` in
Python — see the harness model below). -/

/-- The query loop for one triple: for each query in order, search and
verify; on the first `"Supports"` verdict stop, keeping the snippets as
evidence.  Returns the queries actually evaluated (in order) and the
evidence if the claim was verified. -/
def scanQueries (vf : List String → String → String) (search : String → String)
    (t : List String) : List String → List String × Option String
  | [] => ([], none)
  | q :: qs =>
    let snippets := search q
    if vf t snippets = "Supports" then ([q], some snippets)
    else
      let r := scanQueries vf search t qs
      (q :: r.1, r.2)

/-- The claim loop: claims in graph order; a claim whose query list is empty
is skipped (`continue`), and a claim whose scan finds evidence appends one
`{triple, evidence}` record to `verified_facts`. -/
def verifyClaims (gq : List String → List String) (search : String → String)
    (vf : List String → String → String) : List (List String) → List VerifiedFact
  | [] => []
  | t :: rest =>
    match (scanQueries vf search t (gq t)).2 with
    | some e => ⟨t, e⟩ :: verifyClaims gq search vf rest
    | none => verifyClaims gq search vf rest

/-- The number of query-loop iterations over the whole graph; each iteration
performs exactly one `utils.execute_search` call and one `agents.verify`
call. -/
def evaluatedCount (gq : List String → List String) (search : String → String)
    (vf : List String → String → String) (graph : List (List String)) : Nat :=
  (graph.map (fun t => (scanQueries vf search t (gq t)).1.length)).sum

/-- The observable outcome of one `run_pipeline` invocation: the accumulated
`verified_facts`, the final text presented (the answer panel, or the abort
message when the graph is empty), and the collaborator call counts. -/
structure PipelineRun where
  verified_facts : List VerifiedFact
  final_answer : String
  search_calls : Nat
  verify_calls : Nat
  answerer_ran : Bool
deriving DecidableEq

/-- `main.run_pipeline`: hypothesize; on an empty graph print the abort
message and stop (zero searches, zero verifications, no answerer call);
otherwise verify every claim and synthesize the final answer once. -/
def run_pipeline (gg : String → List (List String))
    (gq : List String → List String) (search : String → String)
    (vf : List String → String → String)
    (ans : String → List VerifiedFact → String) (question : String) : PipelineRun :=
  let graph := gg question
  if graph = [] then ⟨[], abortMsg, 0, 0, false⟩
  else
    let facts := verifyClaims gq search vf graph
    ⟨facts, ans question facts, evaluatedCount gq search vf graph,
      evaluatedCount gq search vf graph, true⟩

/-! ## `evaluation.run_single_test` (`mvp/evaluation.py`, lines 46-75)

The harness expects `run_pipeline` to return a dictionary with
`final_answer` and `latency` (its own comment: "Assumes run_pipeline will
be modified to return a dictionary").  The pipeline call and the judge
call are parameters returning either a raised-exception message
(`Except.error`, which the surrounding `try` converts into the failed
record) or their value; the Python return value of `run_pipeline` is `Option
PipelineDict`, and subscripting `None` raises `TypeError`. -/

/-- The dictionary shape `run_single_test` reads from the pipeline result. -/
structure PipelineDict where
  final_answer : String
  latency : ℚ
  verified_facts : List VerifiedFact
deriving DecidableEq

/-- The dictionary returned by `agents.evaluate_answer` as the harness reads
it: `.get("decision", "Incorrect")` and `.get("reasoning", "N/A")`. -/
structure JudgeDict where
  decision : Option String
  reasoning : Option String
deriving DecidableEq

/-- A test case as read by `run_single_test`: `test_case.get("question")`
and `test_case.get("answer")`, absent keys giving `None`. -/
structure TestCase where
  question : Option String
  answer : Option String
deriving DecidableEq

/-- The record `run_single_test` returns (the nested `pipeline_result`
dictionary of the Python return is flattened into its fields). -/
structure SingleTestResult where
  success : Nat
  latency : ℚ
  final_answer : String
  verified_facts : List VerifiedFact
  reasoning : String
deriving DecidableEq

/-- The error message of subscripting `None` with the final_answer key. -/
def noneSubscriptMsg : String := "TypeError: NoneType object is not subscriptable"

/-- `evaluation.run_single_test`: try running the pipeline, subscripting its
result, judging the answer, and recording `success = 1` exactly when the
judge decision is `"Correct"`; any exception along the way is caught and
converted into the failed record with `success = 0`, answer
`"PIPELINE_ERROR"` and the explanatory reasoning. -/
def run_single_test (pipeline : Option String → Except String (Option PipelineDict))
    (judge : Option String → Option String → String → Except String JudgeDict)
    (tc : TestCase) : SingleTestResult :=
  match pipeline tc.question with
  | Except.error e => ⟨0, 0, "PIPELINE_ERROR", [], "An unexpected error occurred: " ++ e⟩
  | Except.ok none =>
    ⟨0, 0, "PIPELINE_ERROR", [], "An unexpected error occurred: " ++ noneSubscriptMsg⟩
  | Except.ok (some pr) =>
    match judge tc.question tc.answer pr.final_answer with
    | Except.error e => ⟨0, 0, "PIPELINE_ERROR", [], "An unexpected error occurred: " ++ e⟩
    | Except.ok jd =>
      ⟨if jd.decision.getD "Incorrect" = "Correct" then 1 else 0, pr.latency,
        pr.final_answer, pr.verified_facts, jd.reasoning.getD "N/A"⟩

/-- The pipeline call the harness actually makes against `mvp/main.py`:
`run_pipeline(question, verbose=False)` raises `TypeError` at the call
site, because `main.run_pipeline` is declared as
`def run_pipeline(question: str)` and accepts no `verbose` keyword. -/
def main_run_pipeline_call : Option String → Except String (Option PipelineDict) :=
  fun _ => Except.error "TypeError: run_pipeline got an unexpected keyword argument"

/-- The pipeline call under the charitable reading that drops the stray
keyword argument: the body of `main.run_pipeline` ends without a `return`
statement on every path (it prints its results), so the call returns
`None`. -/
def main_run_pipeline_noKw : Option String → Except String (Option PipelineDict) :=
  fun _ => Except.ok none

/-! ## Concrete collaborator fixtures used by witnesses and counterexamples -/

/-- A sample well-formed triple. -/
def wTriple : List String := ["a", "b", "c"]

/-- A planner returning one fixed query for every triple. -/
def wGq : List String → List String := fun _ => ["q1"]

/-- A search returning fixed evidence text for every query. -/
def wSearch : String → String := fun _ => "ev"

/-- A verifier answering `"Supports"` for every triple and evidence. -/
def wVf : List String → String → String := fun _ _ => "Supports"

/-- A model endpoint whose every call fails with message `"E"`. -/
def wFailEndpoint : Nat → Except String String := fun _ => Except.error "E"

/-- A zero jitter stream. -/
def wZeroJit : Nat → ℚ := fun _ => 0

/-- A model that never answers (total `call_llm` failure). -/
def wNoneLlm : String → Option String := fun _ => none

/-- The text contributed by one fact to the evidence block of the answerer. -/
def factEntry (fact : VerifiedFact) : String :=
  "- 事实: " ++ pyListStr fact.triple ++ "\n" ++ "  证据: " ++
    pyReplaceBN fact.evidence ++ "\n\n"

/-- Concatenation of a list of strings. -/
def concatAll : List String → String
  | [] => ""
  | s :: rest => s ++ concatAll rest

/-! ## Helper lemmas -/

theorem isPre_refl (p : List Char) : isPre p p = true := by
  induction p with
  | nil => rfl
  | cons a as ih => simp [isPre, ih]

theorem isPre_append {p a : List Char} (b : List Char) (h : isPre p a = true) :
    isPre p (a ++ b) = true := by
  induction p generalizing a with
  | nil => simp [isPre]
  | cons x xs ih =>
    cases a with
    | nil => simp [isPre] at h
    | cons y ys =>
      simp only [isPre] at h ⊢
      by_cases hxy : x = y
      · simpa [hxy] using ih (by simpa [hxy] using h)
      · simp [hxy] at h

theorem subList_append_left {p a : List Char} (b : List Char)
    (h : subList p a = true) : subList p (a ++ b) = true := by
  induction a with
  | nil =>
    simp only [subList] at h
    cases p with
    | nil => cases b with
      | nil => simp [subList, isPre]
      | cons c cs => simp [subList, isPre]
    | cons x xs => simp [isPre] at h
  | cons c cs ih =>
    simp only [subList, Bool.or_eq_true] at h ⊢
    rcases h with h | h
    · exact Or.inl (isPre_append b h)
    · exact Or.inr (ih h)

theorem subList_append_right {p b : List Char} (a : List Char)
    (h : subList p b = true) : subList p (a ++ b) = true := by
  induction a with
  | nil => simpa using h
  | cons c cs ih =>
    simp only [List.cons_append, subList, Bool.or_eq_true]
    exact Or.inr ih

theorem subList_self (p : List Char) : subList p p = true := by
  cases p with
  | nil => rfl
  | cons c cs => simp [subList, isPre_refl]

theorem string_data_append (s t : String) : (s ++ t).data = s.data ++ t.data := rfl

theorem hasSub_of_mem_joinWith (sep : String) {s : String} :
    ∀ {l : List String}, s ∈ l → hasSub s (joinWith sep l) = true := by
  intro l
  induction l with
  | nil => intro h; cases h
  | cons x rest ih =>
    intro hmem
    cases rest with
    | nil =>
      have hx : s = x := by simpa using hmem
      subst hx
      simpa [joinWith, hasSub] using subList_self s.data
    | cons y ys =>
      rcases List.mem_cons.mp hmem with hx | hrest
      · subst hx
        simp only [joinWith, hasSub, string_data_append]
        exact subList_append_left _ (subList_append_left _ (subList_self s.data))
      · have := ih hrest
        simp only [joinWith, hasSub, string_data_append] at this ⊢
        rw [List.append_assoc]
        exact subList_append_right _ (subList_append_right _ this)

theorem string_append_assoc (a b c : String) : (a ++ b) ++ c = a ++ (b ++ c) := by
  cases a with | mk x =>
  cases b with | mk y =>
  cases c with | mk z =>
  show String.mk ((x ++ y) ++ z) = String.mk (x ++ (y ++ z))
  rw [List.append_assoc]

theorem string_append_empty (s : String) : s ++ "" = s := by
  cases s with | mk x =>
  show String.mk (x ++ []) = String.mk x
  rw [List.append_nil]

theorem string_empty_append (s : String) : "" ++ s = s := by
  cases s with | mk x => rfl

theorem scan_none_iff (vf : List String → String → String) (search : String → String)
    (t : List String) (qs : List String) :
    (scanQueries vf search t qs).2 = none ↔ ∀ q ∈ qs, vf t (search q) ≠ "Supports" := by
  induction qs with
  | nil => simp [scanQueries]
  | cons q rest ih =>
    simp only [scanQueries]
    by_cases hq : vf t (search q) = "Supports"
    · simp [hq]
    · simp [hq, ih]

theorem scan_some_shape (vf : List String → String → String) (search : String → String)
    (t : List String) {qs : List String} {e : String}
    (h : (scanQueries vf search t qs).2 = some e) :
    ∃ pre q rest2, qs = pre ++ q :: rest2
      ∧ (scanQueries vf search t qs).1 = pre ++ [q]
      ∧ (∀ p ∈ pre, vf t (search p) ≠ "Supports")
      ∧ vf t (search q) = "Supports" ∧ e = search q := by
  induction qs with
  | nil => simp [scanQueries] at h
  | cons q rest ih =>
    by_cases hq : vf t (search q) = "Supports"
    · refine ⟨[], q, rest, by simp, ?_, by simp, hq, ?_⟩
      · simp [scanQueries, hq]
      · simp only [scanQueries, hq, if_pos] at h
        simpa using h.symm
    · simp only [scanQueries, hq, if_neg, not_false_iff] at h ⊢
      obtain ⟨pre, q2, rest2, hqs, hfst, hpre, hsup, he⟩ := ih h
      refine ⟨q :: pre, q2, rest2, by simp [hqs], by simp [hfst], ?_, hsup, he⟩
      intro p hp
      rcases List.mem_cons.mp hp with hp | hp
      · subst hp; exact hq
      · exact hpre p hp

theorem scan_isSome_iff (vf : List String → String → String) (search : String → String)
    (t : List String) (qs : List String) :
    (∃ e, (scanQueries vf search t qs).2 = some e) ↔
      ∃ q ∈ qs, vf t (search q) = "Supports" := by
  constructor
  · rintro ⟨e, he⟩
    obtain ⟨pre, q, rest2, hqs, _, _, hsup, _⟩ := scan_some_shape vf search t he
    exact ⟨q, by simp [hqs], hsup⟩
  · intro hex
    cases ho : (scanQueries vf search t qs).2 with
    | some e => exact ⟨e, rfl⟩
    | none =>
      obtain ⟨q, hq, hsup⟩ := hex
      exact absurd hsup ((scan_none_iff vf search t qs).mp ho q hq)

theorem verifyClaims_eq_filterMap (gq : List String → List String)
    (search : String → String) (vf : List String → String → String)
    (graph : List (List String)) :
    verifyClaims gq search vf graph =
      graph.filterMap (fun t => ((scanQueries vf search t (gq t)).2).map
        (fun e => VerifiedFact.mk t e)) := by
  induction graph with
  | nil => rfl
  | cons t rest ih =>
    simp only [verifyClaims, List.filterMap_cons]
    cases ho : (scanQueries vf search t (gq t)).2 with
    | some e => simp [ho, ih]
    | none => simp [ho, ih]

theorem verifyClaims_countP_eq_zero (gq : List String → List String)
    (search : String → String) (vf : List String → String → String)
    {graph : List (List String)} {t : List String} (h : t ∉ graph) :
    (verifyClaims gq search vf graph).countP (fun r => decide (r.triple = t)) = 0 := by
  induction graph with
  | nil => rfl
  | cons a rest ih =>
    have hat : a ≠ t := fun hheq => h (by simp [hheq])
    have hrest : t ∉ rest := fun hm => h (List.mem_cons_of_mem a hm)
    simp only [verifyClaims]
    cases ho : (scanQueries vf search a (gq a)).2 with
    | some e => simp [List.countP_cons, hat, ih hrest]
    | none => exact ih hrest

theorem verifyClaims_countP_le_one (gq : List String → List String)
    (search : String → String) (vf : List String → String → String)
    {graph : List (List String)} (h : graph.Nodup) (t : List String) :
    (verifyClaims gq search vf graph).countP (fun r => decide (r.triple = t)) ≤ 1 := by
  induction graph with
  | nil => simp [verifyClaims]
  | cons a rest ih =>
    have hna : a ∉ rest := (List.nodup_cons.mp h).1
    have hnd : rest.Nodup := (List.nodup_cons.mp h).2
    simp only [verifyClaims]
    cases ho : (scanQueries vf search a (gq a)).2 with
    | some e =>
      rw [List.countP_cons]
      by_cases hat : a = t
      · subst hat
        have := @verifyClaims_countP_eq_zero gq search vf rest a hna
        simp [this]
      · simp [hat, ih hnd]
    | none => exact ih hnd

theorem foldl_evidence_entries (facts : List VerifiedFact) :
    ∀ acc : String,
      facts.foldl (fun acc fact =>
        acc ++ "- 事实: " ++ pyListStr fact.triple ++ "\n" ++ "  证据: " ++
          pyReplaceBN fact.evidence ++ "\n\n") acc
      = acc ++ concatAll (facts.map factEntry) := by
  induction facts with
  | nil => intro acc; simp [concatAll, string_append_empty]
  | cons x rest ih =>
    intro acc
    simp only [List.foldl_cons, List.map_cons, concatAll]
    rw [ih]
    simp [factEntry, string_append_assoc]

theorem evidence_block_eq_concatAll (facts : List VerifiedFact) :
    evidence_block facts = concatAll (facts.map factEntry) := by
  have := foldl_evidence_entries facts ""
  simpa [evidence_block, string_empty_append] using this

theorem callFrom_one_fail (endpoint : Nat → Except String String) (B : ℚ) (jit : Nat → ℚ)
    {a : Nat} {e : String} (he : endpoint a = Except.error e) :
    callFrom endpoint B jit a 1 = (none, ⟨1, [], some e⟩) := by
  rw [callFrom, he]

theorem callFrom_step_fail (endpoint : Nat → Except String String) (B : ℚ) (jit : Nat → ℚ)
    {a f : Nat} {e : String} (he : endpoint a = Except.error e) :
    callFrom endpoint B jit a (f + 2) =
      ((callFrom endpoint B jit (a + 1) (f + 1)).1,
        ⟨(callFrom endpoint B jit (a + 1) (f + 1)).2.calls + 1,
          (B * 2 ^ a + jit a) :: (callFrom endpoint B jit (a + 1) (f + 1)).2.sleeps,
          (callFrom endpoint B jit (a + 1) (f + 1)).2.finalErrorLog⟩) := by
  rw [callFrom, he]

theorem callFrom_allFail (endpoint : Nat → Except String String) (B : ℚ) (jit : Nat → ℚ)
    (hfail : ∀ n, ∃ e, endpoint n = Except.error e) :
    ∀ fuel a, 1 ≤ fuel →
      (callFrom endpoint B jit a fuel).1 = none
      ∧ (callFrom endpoint B jit a fuel).2.calls = fuel
      ∧ (callFrom endpoint B jit a fuel).2.sleeps =
          (List.range (fuel - 1)).map (fun i => B * 2 ^ (a + i) + jit (a + i))
      ∧ (∀ e2, endpoint (a + (fuel - 1)) = Except.error e2 →
          (callFrom endpoint B jit a fuel).2.finalErrorLog = some e2) := by
  intro fuel
  induction fuel with
  | zero => intro a h; exact absurd h (by decide)
  | succ f ih =>
    intro a _
    obtain ⟨e, he⟩ := hfail a
    cases f with
    | zero =>
      rw [callFrom_one_fail endpoint B jit he]
      refine ⟨rfl, rfl, by simp, ?_⟩
      intro e2 he2
      rw [Nat.add_zero, he] at he2
      have h3 : e = e2 := by injection he2
      simp [h3]
    | succ f2 =>
      obtain ⟨ih1, ih2, ih3, ih4⟩ := ih (a + 1) (by omega)
      rw [callFrom_step_fail endpoint B jit he]
      refine ⟨ih1, by simp [ih2], ?_, ?_⟩
      · show (B * 2 ^ a + jit a) :: (callFrom endpoint B jit (a + 1) (f2 + 1)).2.sleeps = _
        rw [ih3]
        have hidx : ∀ i : Nat, a + 1 + i = a + (i + 1) := fun i => by omega
        simp [List.range_succ_eq_map, List.map_map, Function.comp, hidx]
      · intro e2 he2
        show (callFrom endpoint B jit (a + 1) (f2 + 1)).2.finalErrorLog = some e2
        apply ih4
        have h4 : a + 1 + (f2 + 1 - 1) = a + (f2 + 1 + 1 - 1) := by omega
        rw [h4]
        exact he2

/-! ## Claim theorems -/

/-- C2: for evidence that is empty or equal to the sentinel
`"SEARCH_API_ERROR"`, `agents.verify` returns `"Neutral"` without making a
remote model call; and any model response that is not exactly one of
`"Supports"`, `"Refutes"`, `"Neutral"` (case-sensitively) is normalized to
`"Neutral"`. -/
theorem claim_C2_verify_normalization (model : String → Option String)
    (t : List String) (s1 s2 r : String)
    (h1 : s1 = "" ∨ s1 = searchSentinel)
    (h2 : ¬ (r = "Supports" ∨ r = "Refutes" ∨ r = "Neutral"))
    (h3 : ¬ (s2 = "" ∨ s2 = searchSentinel)) :
    verify model t s1 = ("Neutral", false)
    ∧ verify (fun _ => some r) t s2 = ("Neutral", true) := by
  constructor
  · rcases h1 with h | h <;> simp [verify, h]
  · simp [verify, h3, h2]

/-- C2 witness: the sentinel-free checks at concrete inputs; a lower-case
`"supports"` response is normalized to `"Neutral"`. -/
theorem claim_C2_witness :
    verify wNoneLlm wTriple "" = ("Neutral", false)
    ∧ verify (fun _ => some "supports") wTriple "ev" = ("Neutral", true) :=
  claim_C2_verify_normalization wNoneLlm wTriple "" "ev" "supports"
    (Or.inl rfl) (by decide) (by decide)

/-- C9: when the model call of the verifier itself fails after all retries
(`call_llm` returns `None`), `agents.verify` returns `"Neutral"` — the same
value as a genuine `"Neutral"` verdict — and never surfaces an error. -/
theorem claim_C9_total_failure_neutral (t : List String) (s : String) :
    (verify wNoneLlm t s).1 = "Neutral"
    ∧ verify wNoneLlm t s = verify (fun _ => some "Neutral") t s := by
  by_cases h : s = "" ∨ s = searchSentinel
  · constructor <;> rcases h with h | h <;> simp [verify, h]
  · constructor <;> simp [verify, h, wNoneLlm]

/-- C4: when the hypothesis generator returns an empty claim graph, the
orchestrator makes zero search calls and zero verification calls, never
runs the answerer, and the run ends with an empty verified-fact set and
the fixed cannot-generate-hypothesis message. -/
theorem claim_C4_empty_graph_short_circuit (gg : String → List (List String))
    (gq : List String → List String) (search : String → String)
    (vf : List String → String → String) (ans : String → List VerifiedFact → String)
    (question : String) (h : gg question = []) :
    run_pipeline gg gq search vf ans question = ⟨[], abortMsg, 0, 0, false⟩ := by
  simp [run_pipeline, h]

/-- C4 witness: the short-circuit at a concrete always-empty generator. -/
theorem claim_C4_witness :
    run_pipeline (fun _ => []) wGq wSearch wVf (fun _ _ => "ans") "q" =
      ⟨[], abortMsg, 0, 0, false⟩ :=
  claim_C4_empty_graph_short_circuit (fun _ => []) wGq wSearch wVf (fun _ _ => "ans") "q" rfl

/-- C10: a generator (resp. planner) response that parses as a JSON object
but lacks the `"triples"` (resp. `"queries"`) key makes `generate_graph`
(resp. `generate_queries`) return the empty list through the silent `.get`
default, and the parse-failure warning that a JSON decode error triggers is
not printed (the warning flag stays `false`). -/
theorem claim_C10_missing_key_silent_default (llm : String → Option String)
    (gloads : String → JsonParse (List (List String)))
    (qloads : String → JsonParse (List String)) (q : String) (t : List String)
    (rawG rawQ : String)
    (h1 : llm (HYPOTHESIZER_PROMPT_fmt q) = some rawG) (h2 : rawG ≠ "")
    (h3 : gloads rawG = JsonParse.missingKey)
    (h4 : llm (QUERY_GENERATOR_PROMPT_fmt (pyTupleStr t)) = some rawQ) (h5 : rawQ ≠ "")
    (h6 : qloads rawQ = JsonParse.missingKey) :
    generate_graph llm gloads q = ([], false)
    ∧ generate_queries llm qloads t = ([], false) := by
  constructor
  · simp [generate_graph, h1, h2, h3]
  · simp [generate_queries, h4, h5, h6]

/-- C10 witness: the silent defaults at a concrete response lacking both keys. -/
theorem claim_C10_witness :
    generate_graph (fun _ => some "RAW") (fun _ => JsonParse.missingKey) "q" = ([], false)
    ∧ generate_queries (fun _ => some "RAW") (fun _ => JsonParse.missingKey) wTriple
        = ([], false) :=
  claim_C10_missing_key_silent_default (fun _ => some "RAW")
    (fun _ => JsonParse.missingKey) (fun _ => JsonParse.missingKey) "q" wTriple
    "RAW" "RAW" rfl (by decide) rfl rfl (by decide) rfl

/-- C1 counterexample: the orchestrator appends one record per graph entry,
so a graph in which the same claim occurs twice (nothing in
`generate_graph` prevents duplicate triples) yields two records for that
claim: the verified-fact set does not contain at most one record per
claim. -/
theorem claim_C1_counterexample :
    verifyClaims wGq wSearch wVf [wTriple, wTriple]
      = [⟨wTriple, "ev"⟩, ⟨wTriple, "ev"⟩]
    ∧ ¬ ((verifyClaims wGq wSearch wVf [wTriple, wTriple]).countP
        (fun r => decide (r.triple = wTriple)) ≤ 1) := by
  refine ⟨by decide, by decide⟩

/-- C1 (amended): for a graph whose claims are pairwise distinct, the
verified-fact set holds at most one record per claim; a record for a claim
exists iff the claim is in the graph and some planner query yields
`"Supports"` on its evidence; and whenever a claim is verified, the queries
actually evaluated are exactly an initial segment of the planner output
ending at the first `"Supports"` query, whose evidence is recorded — no
later query is evaluated. -/
theorem claim_C1_first_supports_wins (gq : List String → List String)
    (search : String → String) (vf : List String → String → String)
    (graph : List (List String)) (h : graph.Nodup) (t : List String) :
    ((verifyClaims gq search vf graph).countP (fun r => decide (r.triple = t)) ≤ 1)
    ∧ ((∃ e, VerifiedFact.mk t e ∈ verifyClaims gq search vf graph) ↔
        (t ∈ graph ∧ ∃ q ∈ gq t, vf t (search q) = "Supports"))
    ∧ (∀ e, (scanQueries vf search t (gq t)).2 = some e →
        ∃ pre q rest2, gq t = pre ++ q :: rest2
          ∧ (scanQueries vf search t (gq t)).1 = pre ++ [q]
          ∧ (∀ p ∈ pre, vf t (search p) ≠ "Supports")
          ∧ vf t (search q) = "Supports" ∧ e = search q) := by
  refine ⟨verifyClaims_countP_le_one gq search vf h t, ?_, ?_⟩
  · rw [verifyClaims_eq_filterMap]
    constructor
    · rintro ⟨e, he⟩
      rw [List.mem_filterMap] at he
      obtain ⟨a, ha, hfa⟩ := he
      cases ho : (scanQueries vf search a (gq a)).2 with
      | none => rw [ho] at hfa; simp at hfa
      | some e2 =>
        rw [ho] at hfa
        simp only [Option.map_some', Option.some.injEq, VerifiedFact.mk.injEq] at hfa
        obtain ⟨hat, _⟩ := hfa
        subst hat
        exact ⟨ha, (scan_isSome_iff vf search a (gq a)).mp ⟨e2, ho⟩⟩
    · rintro ⟨hmem, hex⟩
      obtain ⟨e, he⟩ := (scan_isSome_iff vf search t (gq t)).mpr hex
      refine ⟨e, ?_⟩
      rw [List.mem_filterMap]
      exact ⟨t, hmem, by rw [he]; rfl⟩
  · intro e he
    exact scan_some_shape vf search t he

/-- C1 witness: the amended statement applied to a concrete one-claim graph
whose single query supports the claim. -/
theorem claim_C1_witness :
    ((verifyClaims wGq wSearch wVf [wTriple]).countP
        (fun r => decide (r.triple = wTriple)) ≤ 1)
    ∧ (∃ pre q rest2, wGq wTriple = pre ++ q :: rest2
        ∧ (scanQueries wVf wSearch wTriple (wGq wTriple)).1 = pre ++ [q]
        ∧ (∀ p ∈ pre, wVf wTriple (wSearch p) ≠ "Supports")
        ∧ wVf wTriple (wSearch q) = "Supports" ∧ "ev" = wSearch q) := by
  obtain ⟨h1, _, h3⟩ :=
    claim_C1_first_supports_wins wGq wSearch wVf [wTriple] (by decide) wTriple
  exact ⟨h1, h3 "ev" (by decide)⟩

/-- C7 counterexample: generator output parsing to
`\x7b"triples": [["a", "b"]]\x7d` is returned as the claim graph unchanged
and without any warning: the two-element triple is neither rejected nor
does it make the graph empty. -/
theorem claim_C7_counterexample :
    generate_graph (fun _ => some "RAW") (fun _ => JsonParse.keyValue [["a", "b"]]) "q"
      = ([["a", "b"]], false)
    ∧ (["a", "b"] : List String).length ≠ 3 := by
  refine ⟨by decide, by decide⟩

/-- C7 (amended): `generate_graph` rejects only output it cannot parse — a
JSON decode failure or a non-dictionary parse yields the empty graph with
the warning — and applies no arity or shape validation: whatever value the
parse carries under `"triples"` is passed through unchanged into the claim
graph, malformed triples included. -/
theorem claim_C7_no_arity_validation (llm : String → Option String)
    (loads : String → JsonParse (List (List String))) (q raw : String)
    (h1 : llm (HYPOTHESIZER_PROMPT_fmt q) = some raw) (h2 : raw ≠ "") :
    (loads raw = JsonParse.decodeError → generate_graph llm loads q = ([], true))
    ∧ (∀ v, loads raw = JsonParse.keyValue v → generate_graph llm loads q = (v, false)) := by
  constructor
  · intro h3; simp [generate_graph, h1, h2, h3]
  · intro v h3; simp [generate_graph, h1, h2, h3]

/-- C7 witness: the two branches at concrete parses — a decode failure warns
and returns the empty graph, a parsed malformed triple passes through. -/
theorem claim_C7_witness :
    generate_graph (fun _ => some "RAW") (fun _ => JsonParse.decodeError) "q" = ([], true)
    ∧ generate_graph (fun _ => some "RAW")
        (fun _ => JsonParse.keyValue [wTriple, ["a", "b"]]) "q"
        = ([wTriple, ["a", "b"]], false) := by
  refine ⟨?_, ?_⟩
  · exact (claim_C7_no_arity_validation (fun _ => some "RAW")
      (fun _ => JsonParse.decodeError) "q" "RAW" rfl (by decide)).1 rfl
  · exact (claim_C7_no_arity_validation (fun _ => some "RAW")
      (fun _ => JsonParse.keyValue [wTriple, ["a", "b"]]) "q" "RAW" rfl (by decide)).2
      [wTriple, ["a", "b"]] rfl

/-- C8 counterexample: with organic snippets `["a", "", "b"]` the collector
returns the non-empty snippets joined by the two-character sequence
backslash-`n` (the Python literal `"\\n"`), which differs from joining by a
newline character; moreover a successful response whose snippet is the
sentinel text itself returns the sentinel though the provider call did not
fail. -/
theorem claim_C8_counterexample :
    execute_search (SearchOutcome.results ["a", "", "b"]) = "a" ++ searchSep ++ "b"
    ∧ "a" ++ searchSep ++ "b" ≠ "a\nb"
    ∧ execute_search (SearchOutcome.results [searchSentinel]) = searchSentinel := by
  refine ⟨by decide, by decide, by decide⟩

/-- C8 (amended): `execute_search` returns the sentinel on transport/non-2xx
failures and on non-JSON bodies, and otherwise returns the non-empty
snippets in result order joined by the literal two-character `"\\n"`
separator; every non-empty snippet occurs verbatim in the returned text. -/
theorem claim_C8_search_join (snips : List String) :
    execute_search SearchOutcome.requestError = searchSentinel
    ∧ execute_search SearchOutcome.badJson = searchSentinel
    ∧ execute_search (SearchOutcome.results snips)
        = joinWith searchSep (snips.filter (fun s => s != ""))
    ∧ (∀ s, s ∈ snips → s ≠ "" →
        hasSub s (execute_search (SearchOutcome.results snips)) = true) := by
  refine ⟨rfl, rfl, rfl, ?_⟩
  intro s hs hne
  have hmem : s ∈ snips.filter (fun x => x != "") := by
    rw [List.mem_filter]
    exact ⟨hs, by simpa using hne⟩
  simpa [execute_search] using hasSub_of_mem_joinWith searchSep hmem

/-- C8 witness: the join and the snippet occurrence at a concrete response. -/
theorem claim_C8_witness :
    execute_search SearchOutcome.requestError = searchSentinel
    ∧ hasSub "b" (execute_search (SearchOutcome.results ["a", "", "b"])) = true := by
  obtain ⟨h1, _, _, h4⟩ := claim_C8_search_join ["a", "", "b"]
  exact ⟨h1, h4 "b" (by decide) (by decide)⟩

/-- C5 counterexample: a fact whose evidence contains the `"\\n"` separator
(exactly what multi-snippet search evidence contains) is altered by
the replace of the backslash-n pattern by a space before formatting, so the
evidence block does not contain the evidence of the fact; the block built
from the words of the spec (the
evidence verbatim) does contain it. -/
theorem claim_C5_counterexample :
    hasSub ("x" ++ searchSep ++ "y")
      (evidence_block [⟨wTriple, "x" ++ searchSep ++ "y"⟩]) = false
    ∧ hasSub ("x" ++ searchSep ++ "y")
        (evidence_block_specWords [⟨wTriple, "x" ++ searchSep ++ "y"⟩]) = true := by
  refine ⟨by decide, by decide⟩

/-- C5 (amended): `agents.generate_answer` returns the fixed insufficiency
message with zero remote calls on an empty verified-fact list; on a
non-empty list it makes exactly one model call whose evidence block lists,
in list order, one entry per fact carrying the triple and that same
evidence with each `"\\n"` sequence replaced by a space; and when the model
call fails entirely it returns the fixed error answer instead of raising. -/
theorem claim_C5_generate_answer (llm : String → Option String) (q : String)
    (facts : List VerifiedFact) (hne : facts ≠ []) (hfail : ∀ p, llm p = none) :
    generate_answer llm q [] = (noInfoMsg, [])
    ∧ (generate_answer llm q facts).2 = [ANSWERER_PROMPT_fmt q (evidence_block facts)]
    ∧ evidence_block facts = concatAll (facts.map factEntry)
    ∧ (generate_answer llm q facts).1 = answerFailMsg := by
  refine ⟨by simp [generate_answer], ?_, evidence_block_eq_concatAll facts, ?_⟩
  · simp [generate_answer, hne, hfail]
  · simp [generate_answer, hne, hfail]

/-- C5 witness: the amended statement at a concrete one-fact list and an
always-failing model. -/
theorem claim_C5_witness :
    generate_answer wNoneLlm "q" [] = (noInfoMsg, [])
    ∧ (generate_answer wNoneLlm "q" [⟨wTriple, "e1"⟩]).2
        = [ANSWERER_PROMPT_fmt "q" (evidence_block [⟨wTriple, "e1"⟩])]
    ∧ evidence_block [⟨wTriple, "e1"⟩] = concatAll ([⟨wTriple, "e1"⟩].map factEntry)
    ∧ (generate_answer wNoneLlm "q" [⟨wTriple, "e1"⟩]).1 = answerFailMsg :=
  claim_C5_generate_answer wNoneLlm "q" [⟨wTriple, "e1"⟩] (by decide) (fun _ => rfl)

/-- C6 counterexample: the value `call_llm` returns to the caller after
exhausting its retries is the bare `None`: two endpoints that always fail
with different errors produce identical return values, so the returned
value describes nothing about the last failure — only the printed log
carries it. -/
theorem claim_C6_counterexample :
    (call_llm (fun _ => Except.error "E1") 3 1 wZeroJit).1 = none
    ∧ (call_llm (fun _ => Except.error "E2") 3 1 wZeroJit).1 = none
    ∧ (call_llm (fun _ => Except.error "E1") 3 1 wZeroJit).1
        = (call_llm (fun _ => Except.error "E2") 3 1 wZeroJit).1
    ∧ (call_llm (fun _ => Except.error "E1") 3 1 wZeroJit).2.finalErrorLog = some "E1"
    ∧ ("E1" : String) ≠ "E2" := by
  refine ⟨by decide, by decide, by decide, by decide, by decide⟩

/-- C6 (amended): against an endpoint that fails on every attempt,
`call_llm` makes exactly `MAX_RETRIES` endpoint calls; the delay slept
before the `(i+1)`-st retry is `INITIAL_BACKOFF * 2^i` plus the drawn
jitter, hence at least `INITIAL_BACKOFF * 2^i` for nonnegative jitter; the
printed final-failure message carries the error of the last attempt; and the
value returned to the caller is `None` (no uncaught fault, but also no
error description). -/
theorem claim_C6_retry_loop (endpoint : Nat → Except String String)
    (B : ℚ) (jit : Nat → ℚ) (R : Nat)
    (hfail : ∀ n, ∃ e, endpoint n = Except.error e)
    (hR : 1 ≤ R) (hjit : ∀ n, 0 ≤ jit n) :
    (call_llm endpoint R B jit).1 = none
    ∧ (call_llm endpoint R B jit).2.calls = R
    ∧ (call_llm endpoint R B jit).2.sleeps
        = (List.range (R - 1)).map (fun i => B * 2 ^ i + jit i)
    ∧ (∀ i, i < R - 1 → B * 2 ^ i ≤ (call_llm endpoint R B jit).2.sleeps.getD i 0)
    ∧ (∀ e, endpoint (R - 1) = Except.error e →
        (call_llm endpoint R B jit).2.finalErrorLog = some e) := by
  obtain ⟨h1, h2, h3, h4⟩ := callFrom_allFail endpoint B jit hfail R 0 hR
  simp only [Nat.zero_add] at h3 h4
  have h3c : (call_llm endpoint R B jit).2.sleeps
      = (List.range (R - 1)).map (fun i => B * 2 ^ i + jit i) := h3
  refine ⟨h1, h2, h3c, ?_, h4⟩
  intro i hi
  rw [h3c]
  have hget : ((List.range (R - 1)).map (fun i => B * 2 ^ i + jit i)).getD i 0
      = B * 2 ^ i + jit i := by
    rw [List.getD_eq_getElem?_getD, List.getElem?_map, List.getElem?_range hi]
    rfl
  rw [hget]
  exact le_add_of_nonneg_right (hjit i)

/-- C6 witness: the amended statement evaluated against a concrete endpoint
that always fails with `"E"`, two retries, unit backoff and zero jitter. -/
theorem claim_C6_witness :
    (call_llm wFailEndpoint 2 1 wZeroJit).1 = none
    ∧ (call_llm wFailEndpoint 2 1 wZeroJit).2.calls = 2
    ∧ (1 : ℚ) * 2 ^ 0 ≤ (call_llm wFailEndpoint 2 1 wZeroJit).2.sleeps.getD 0 0
    ∧ (call_llm wFailEndpoint 2 1 wZeroJit).2.finalErrorLog = some "E" := by
  obtain ⟨h1, h2, _, h4, h5⟩ :=
    claim_C6_retry_loop wFailEndpoint 1 wZeroJit 2
      (fun n => ⟨"E", rfl⟩) (by decide) (fun n => le_refl 0)
  exact ⟨h1, h2, h4 0 (by decide), h5 "E" rfl⟩

/-- C3 (code bug): `evaluation.run_single_test` is specified to run the
pipeline, judge the answer, and set `success = (decision = "Correct")`; but
the repository function `main.run_pipeline` takes no `verbose` keyword and returns
`None` (it only prints its results), so under both readings of the call the
harness hits an exception, the judge is never consulted (the outcome does
not depend on it), and every test case is recorded as a failure — while the
try-branch logic would indeed set `success = 1` for a `"Correct"` decision
if the pipeline returned the assumed dictionary. -/
theorem claim_C3_harness_never_judges
    (judge judge2 : Option String → Option String → String → Except String JudgeDict)
    (tc : TestCase) (d : PipelineDict) :
    run_single_test main_run_pipeline_call judge tc
      = ⟨0, 0, "PIPELINE_ERROR", [], "An unexpected error occurred: "
          ++ "TypeError: run_pipeline got an unexpected keyword argument"⟩
    ∧ run_single_test main_run_pipeline_call judge tc
        = run_single_test main_run_pipeline_call judge2 tc
    ∧ run_single_test main_run_pipeline_noKw judge tc
        = ⟨0, 0, "PIPELINE_ERROR", [], "An unexpected error occurred: " ++ noneSubscriptMsg⟩
    ∧ run_single_test main_run_pipeline_noKw judge tc
        = run_single_test main_run_pipeline_noKw judge2 tc
    ∧ (run_single_test (fun _ => Except.ok (some d))
        (fun _ _ _ => Except.ok ⟨some "Correct", some "ok"⟩) tc).success = 1 := by
  refine ⟨rfl, rfl, rfl, rfl, ?_⟩
  simp [run_single_test]
